import Mathlib

set_option maxHeartbeats 1000000
set_option maxRecDepth 8000

/-!
Shallow embedding of selected modules of the CHM repository:
`src/src/modules/snow_slide.cpp`, `src/src/modules/interp_met/Dist_tlapse.cpp`,
`src/src/modules/interp_met/rh_from_obs.cpp` and
`src/src/modules/snowpack/SnowDrift.cc`.

Real-valued quantities are modelled over `ℚ`.  Transcendental inputs are not
recomputed in the embedding: the cosine of a face's slope and the
`avalache_mult * pow(slopeDeg, avalache_pow)` term of `snow_slide::init` enter
as per-face inputs, and `exp` (used by `esat` in `rh_from_obs.cpp`) enters as a
function parameter.  Fallible operations return `Except`.
-/

namespace snow_slide

/-- Per-face immutable mesh inputs used by `snow_slide`
(`src/src/modules/snow_slide.cpp`).  `cosSlope` is the value of
`cos(face->slope())`; `aPowSlope` is the value of
`avalache_mult * pow(slopeDeg, avalache_pow)` computed in `init` (line 264),
taken as an input because `pow` is transcendental; `canopyHeight` is
`some h` when `face->has_vegetation()`; `neighbors i` is `none` for a null
neighbour slot, otherwise the index of the neighbour face. -/
structure Face where
  centerZ : ℚ
  area : ℚ
  cosSlope : ℚ
  aPowSlope : ℚ
  canopyHeight : Option ℚ
  is_ghost : Bool
  neighbors : Fin 3 → Option Nat

/-- The module's per-face state block `snow_slide::data`
(the C++ struct also stores `slope`, which `run` never reads back;
it is omitted here). -/
structure Data where
  maxDepth_norm : ℚ
  maxDepth_vert : ℚ
  snowdepthavg_copy : ℚ
  snowdepthavg_vert_copy : ℚ
  swe_copy : ℚ
  delta_avalanche_snowdepth : ℚ
  delta_avalanche_mass : ℚ
deriving DecidableEq

/-- The face's variable-store row as seen by `snow_slide`:
inputs `snowdepthavg` and `swe`, outputs `delta_avalanche_snowdepth`,
`delta_avalanche_mass` and `maxDepth`.  A field keeps its previous value
until the module writes it. -/
structure StoreRow where
  snowdepthavg : ℚ
  swe : ℚ
  delta_avalanche_snowdepth : ℚ
  delta_avalanche_mass : ℚ
  maxDepth : ℚ
deriving DecidableEq

/-- Mutable state of a `snow_slide` tick: the module data blocks and the
variable store, indexed by face number. -/
structure State where
  data : Nat → Data
  store : Nat → StoreRow

/-- Pointwise update of an indexed family at one index. -/
def upd {α : Type} (g : Nat → α) (i : Nat) (v : α) : Nat → α :=
  fun j => if j = i then v else g j

/-- The factor `std::max(0.001, cos(face->slope()))` (lines 87, 93, 203, 214, 265). -/
def vertFactor (f : Face) : ℚ := max (1/1000) f.cosSlope

/-- `Z_CanTop` of `snow_slide::init` (lines 253-260): the canopy height when the
face has vegetation, otherwise `0`. -/
def Z_CanTop (f : Face) : ℚ := f.canopyHeight.getD 0

/-- `maxDepth_norm` of `snow_slide::init` (line 264):
`std::max(avalache_mult * pow(slopeDeg, avalache_pow), Z_CanTop)`. -/
def maxDepth_norm_of (f : Face) : ℚ := max f.aPowSlope (Z_CanTop f)

/-- `cfg.get("use_vertical_snow", true)` of the `snow_slide` constructor
(line 33): the configured value when present, else the default `true`. -/
def use_vertical_snow_of (cfg : Option Bool) : Bool := cfg.getD true

/-- `snow_slide::init` (lines 240-269): creates the per-face data block,
sets `maxDepth_norm` and `maxDepth_vert`, and publishes `maxDepth_norm`
in the variable store under `maxDepth` (line 267).  The remaining data
fields are default-constructed (modelled as `0`); `run` overwrites them
before reading them. -/
def init (dom : Nat → Face) (n : Nat) (st : State) : State :=
  { data := fun i =>
      if i < n then
        { maxDepth_norm := maxDepth_norm_of (dom i)
          maxDepth_vert := maxDepth_norm_of (dom i) * vertFactor (dom i)
          snowdepthavg_copy := 0
          snowdepthavg_vert_copy := 0
          swe_copy := 0
          delta_avalanche_snowdepth := 0
          delta_avalanche_mass := 0 }
      else st.data i
    store := fun i =>
      if i < n then ({ st.store i with maxDepth := maxDepth_norm_of (dom i) })
      else st.store i }

/-- The parallel snapshot loop of `snow_slide::run` (lines 78-95): copies
`snowdepthavg` and `swe` (mm to m) from the store into the data block,
computes the vertical snow depth and zeroes the two delta fields.
Each iteration touches only its own face, so the loop is modelled as a
pointwise map. -/
def prep (dom : Nat → Face) (n : Nat) (st : State) : State :=
  { st with data := fun i =>
      if i < n then
        { st.data i with
          snowdepthavg_copy := (st.store i).snowdepthavg
          snowdepthavg_vert_copy := (st.store i).snowdepthavg / vertFactor (dom i)
          swe_copy := (st.store i).swe / 1000
          delta_avalanche_snowdepth := 0
          delta_avalanche_mass := 0 }
      else st.data i }

/-- The sort key of line 93: `face->center().z() + snowdepthavg / max(0.001, cos(slope))`,
computed from the store values present when `run` begins. -/
def zKey (dom : Nat → Face) (st : State) (i : Nat) : ℚ :=
  (dom i).centerZ + (st.store i).snowdepthavg / vertFactor (dom i)

/-- Whether neighbour slot `i` triggers the edge flag (lines 142-155):
the slot is null or the neighbour is a ghost face. -/
def slotEdge (dom : Nat → Face) (f : Face) (i : Fin 3) : Bool :=
  match f.neighbors i with
  | some nIdx => (dom nIdx).is_ghost
  | none => true

/-- The `edge_flag` of lines 135-155: set when any of the three neighbour
slots is null or ghost. -/
def edgeFlag (dom : Nat → Face) (f : Face) : Bool :=
  slotEdge dom f 0 || slotEdge dom f 1 || slotEdge dom f 2

/-- The raw routing weight `w[i]` of line 150:
`std::max(0.0, z_s - (n->center().z() + n_data->snowdepthavg_vert_copy))`
for a valid non-ghost neighbour, `0` otherwise. -/
def weight (dom : Nat → Face) (st : State) (z_s : ℚ) (f : Face) (i : Fin 3) : ℚ :=
  match f.neighbors i with
  | some nIdx =>
      if (dom nIdx).is_ghost then 0
      else max 0 (z_s - ((dom nIdx).centerZ + (st.data nIdx).snowdepthavg_vert_copy))
  | none => 0

/-- The weight denominator `w_dem` (line 151): the sum of the three raw weights. -/
def wDem (dom : Nat → Face) (st : State) (z_s : ℚ) (f : Face) : ℚ :=
  weight dom st z_s f 0 + weight dom st z_s f 1 + weight dom st z_s f 2

/-- `z_s` of line 132 for the face being processed: its centroid elevation plus
its current vertical snow depth copy. -/
def zS (dom : Nat → Face) (st : State) (fi : Nat) : ℚ :=
  (dom fi).centerZ + (st.data fi).snowdepthavg_vert_copy

/-- The `maxDepth` selection of lines 112-120: `maxDepth_vert` when
`use_vertical_snow` holds, else `maxDepth_norm`. -/
def maxDepthUsed (uvs : Bool) (d : Data) : ℚ :=
  if uvs then d.maxDepth_vert else d.maxDepth_norm

/-- One iteration of the routing loop of lines 188-211, for neighbour slot `j`:
deposits depth and swe into a valid non-ghost neighbour's copies, refreshes its
vertical depth using the centre face's slope (line 203), accumulates its delta
fields and the `out_mass` balance accumulator. -/
def routeStep (dom : Nat → Face) (f : Face) (cen_area del_depth del_swe : ℚ)
    (wn : Fin 3 → ℚ) (acc : State × ℚ) (j : Fin 3) : State × ℚ :=
  match f.neighbors j with
  | some nIdx =>
      if (dom nIdx).is_ghost then acc
      else
        let st := acc.1
        let n_area := (dom nIdx).area
        let nd := st.data nIdx
        let new_sd := nd.snowdepthavg_copy + del_depth * (cen_area / n_area) * wn j
        let nd2 : Data :=
          { nd with
            snowdepthavg_copy := new_sd
            swe_copy := nd.swe_copy + del_swe * (cen_area / n_area) * wn j
            snowdepthavg_vert_copy := new_sd / vertFactor f
            delta_avalanche_snowdepth :=
              nd.delta_avalanche_snowdepth + del_depth * cen_area * wn j
            delta_avalanche_mass := nd.delta_avalanche_mass + del_swe * cen_area * wn j }
        ({ st with data := upd st.data nIdx nd2 }, acc.2 + del_swe * cen_area * wn j)
  | none => acc

/-- The full routing loop over the three neighbour slots (lines 186-211),
threading the state and the `out_mass` accumulator. -/
def routeLoop (dom : Nat → Face) (f : Face) (cen_area del_depth del_swe : ℚ)
    (wn : Fin 3 → ℚ) (st : State) : State × ℚ :=
  [(0 : Fin 3), 1, 2].foldl (routeStep dom f cen_area del_depth del_swe wn) (st, 0)

/-- The body of the serial redistribution loop of `snow_slide::run`
(lines 106-235) for one face `fi`, translated statement by statement:
avalanche test (line 126), excess computation (128-130), raw weights and
edge flag (132-155), the edge branch with its store write (157-172), the
`continue` on `w_dem == 0` (174-177) — note the edge branch does not exit,
so an edge face with a positive weight sum falls through to the routing
case — weight normalization (179-183), the routing loop (185-211), the
centre-face removal (212-220) and the end-of-iteration store write (230-233). -/
def processFace (dom : Nat → Face) (uvs : Bool) (st : State) (fi : Nat) : State :=
  let f := dom fi
  let cen_area := f.area
  let d := st.data fi
  let maxDepth := maxDepthUsed uvs d
  let snowdepthavg := d.snowdepthavg_copy
  let snowdepthavg_vert := d.snowdepthavg_vert_copy
  let swe := d.swe_copy
  if maxDepth < snowdepthavg then
    let del_depth := snowdepthavg - maxDepth
    let del_swe := swe * (1 - maxDepth / snowdepthavg)
    let z_s := f.centerZ + snowdepthavg_vert
    let w_dem := wDem dom st z_s f
    let st1 :=
      if edgeFlag dom f then
        let d2 : Data :=
          { d with
            snowdepthavg_copy := maxDepth
            swe_copy := swe * maxDepth / snowdepthavg
            delta_avalanche_snowdepth :=
              d.delta_avalanche_snowdepth - del_depth * cen_area
            delta_avalanche_mass := d.delta_avalanche_mass - del_swe * cen_area }
        { data := upd st.data fi d2
          store := upd st.store fi
            ({ st.store fi with
               delta_avalanche_snowdepth := d2.delta_avalanche_snowdepth
               delta_avalanche_mass := d2.delta_avalanche_mass }) }
      else st
    if w_dem = 0 then st1
    else
      let wn : Fin 3 → ℚ := fun i => weight dom st z_s f i / w_dem
      let r := routeLoop dom f cen_area del_depth del_swe wn st1
      let st2 := r.1
      let dc := st2.data fi
      let dc2 : Data :=
        { dc with
          snowdepthavg_copy := maxDepth
          snowdepthavg_vert_copy := maxDepth / vertFactor f
          swe_copy := swe * maxDepth / snowdepthavg
          delta_avalanche_snowdepth :=
            dc.delta_avalanche_snowdepth - del_depth * cen_area
          delta_avalanche_mass := dc.delta_avalanche_mass - del_swe * cen_area }
      { data := upd st2.data fi dc2
        store := upd st2.store fi
          ({ st2.store fi with
             delta_avalanche_snowdepth := dc2.delta_avalanche_snowdepth
             delta_avalanche_mass := dc2.delta_avalanche_mass }) }
  else
    { st with
      store :=
        upd st.store fi
          ({ st.store fi with
             delta_avalanche_snowdepth := d.delta_avalanche_snowdepth
             delta_avalanche_mass := d.delta_avalanche_mass }) }

/-- `snow_slide::run` (lines 70-238): snapshot loop, then the serial sweep over
the faces in the supplied order.  The sort of lines 102-104
(`tbb::parallel_sort` with comparator `b.first < a.first`) determines the order
only up to ties, so the order is a parameter constrained by `validOrder`. -/
def run (dom : Nat → Face) (n : Nat) (uvs : Bool) (order : List Nat) (st : State) : State :=
  order.foldl (processFace dom uvs) (prep dom n st)

/-- The contract `tbb::parallel_sort(sorted_z, [](a,b){ return b.first < a.first; })`
guarantees for the iteration order (lines 102-104): a permutation of the face
indices that is pairwise non-ascending in `zKey`.  `parallel_sort` is not a
stable sort, so nothing more is guaranteed on ties. -/
def validOrder (dom : Nat → Face) (n : Nat) (st : State) (order : List Nat) : Prop :=
  order.Perm (List.range n) ∧
    order.Pairwise (fun a b => zKey dom st b ≤ zKey dom st a)

/-- Modelled from the spec: the iteration order the spec prescribes —
"Stable-sort faces by `z_key` descending.  Tie-break on face index for
determinism."  With the index tie-break this is the unique sort of the face
indices by descending key and ascending index. -/
def specR (key : Nat → ℚ) (a b : Nat) : Prop :=
  key b < key a ∨ (key a = key b ∧ a ≤ b)

instance (key : Nat → ℚ) : DecidableRel (specR key) := fun a b => by
  unfold specR; infer_instance

/-- Modelled from the spec: the deterministic order of the spec's stable
descending sort with index tie-break. -/
def specOrder (dom : Nat → Face) (n : Nat) (st : State) : List Nat :=
  List.insertionSort (specR (zKey dom st)) (List.range n)

instance specR_total (key : Nat → ℚ) : IsTotal Nat (specR key) where
  total a b := by
    unfold specR
    rcases lt_trichotomy (key a) (key b) with h | h | h
    · exact Or.inr (Or.inl h)
    · rcases Nat.le_total a b with hab | hab
      · exact Or.inl (Or.inr ⟨h, hab⟩)
      · exact Or.inr (Or.inr ⟨h.symm, hab⟩)
    · exact Or.inl (Or.inl h)

instance specR_trans (key : Nat → ℚ) : IsTrans Nat (specR key) where
  trans a b c hab hbc := by
    unfold specR at hab hbc ⊢
    rcases hab with h1 | ⟨e1, l1⟩
    · rcases hbc with h2 | ⟨e2, l2⟩
      · exact Or.inl (h2.trans h1)
      · exact Or.inl (lt_of_le_of_lt e2.symm.le h1)
    · rcases hbc with h2 | ⟨e2, l2⟩
      · exact Or.inl (lt_of_lt_of_eq h2 e1.symm)
      · exact Or.inr ⟨e1.trans e2, l1.trans l2⟩

/-- The swe volume removed from an avalanching face, `orig_mass = del_swe * cen_area`
(line 130). -/
def origMass (dom : Nat → Face) (uvs : Bool) (st : State) (fi : Nat) : ℚ :=
  let d := st.data fi
  d.swe_copy * (1 - maxDepthUsed uvs d / d.snowdepthavg_copy) * (dom fi).area

/-- The swe volume transferred to the neighbours, the `out_mass` accumulator of
lines 186-211, computed with the normalized weights of lines 179-183. -/
def outMass (dom : Nat → Face) (uvs : Bool) (st : State) (fi : Nat) : ℚ :=
  let f := dom fi
  let d := st.data fi
  let maxDepth := maxDepthUsed uvs d
  let del_depth := d.snowdepthavg_copy - maxDepth
  let del_swe := d.swe_copy * (1 - maxDepth / d.snowdepthavg_copy)
  let z_s := zS dom st fi
  let w_dem := wDem dom st z_s f
  let wn : Fin 3 → ℚ := fun i => weight dom st z_s f i / w_dem
  (routeLoop dom f f.area del_depth del_swe wn st).2

end snow_slide

namespace Dist_tlapse

/-- A station as seen by `Dist_tlapse::run`
(`src/src/modules/interp_met/Dist_tlapse.cpp`): position and the current
temperature observation; `none` models a non-finite value, the case the
`is_nan` guard of line 44 skips. -/
structure Station where
  x : ℚ
  y : ℚ
  z : ℚ
  t : Option ℚ
deriving DecidableEq

/-- The face fields `Dist_tlapse::run` reads: `get_x()`, `get_y()`, `get_z()`. -/
structure FaceQ where
  x : ℚ
  y : ℚ
  z : ℚ
deriving DecidableEq

/-- The failure of spec section 4.H: fewer than one usable station. -/
inductive InterpError where
  | insufficient_data
deriving DecidableEq

/-- Squared planar distance between a sample position and the query position. -/
def dist2 (px py qx qy : ℚ) : ℚ := (px - qx) ^ 2 + (py - qy) ^ 2

/-- Modelled from the spec: the `interp_base` implementations selected by
`interp_algorithm` (spec section 4.E lists `spline`, `idw`, `nn`) are not among
the sampled sources.  This models the `idw` instance: inverse-distance
weighting with weights `1/d^2`, answering the sample value exactly when the
query coincides with a sample position, and failing with `insufficient-data`
when fewer than one sample is supplied (spec section 4.H). -/
def interpIdw (samples : List (ℚ × ℚ × ℚ)) (q : ℚ × ℚ × ℚ) :
    Except InterpError ℚ :=
  match samples with
  | [] => .error .insufficient_data
  | _ :: _ =>
    match samples.find? (fun s => dist2 s.1 s.2.1 q.1 q.2.1 == 0) with
    | some s => .ok s.2.2
    | none =>
        .ok ((samples.map (fun s => s.2.2 / dist2 s.1 s.2.1 q.1 q.2.1)).sum
          / (samples.map (fun s => 1 / dist2 s.1 s.2.1 q.1 q.2.1)).sum)

/-- The station loop of `Dist_tlapse::run` (lines 41-48): stations with a
non-finite temperature are skipped (`is_nan`, line 44), the rest are lowered to
sea level, `v = t - lapse_rate * (0 - z)` (line 46). -/
def lowered_values (lapse_rate : ℚ) (stations : List Station) :
    List (ℚ × ℚ × ℚ) :=
  stations.filterMap fun s =>
    match s.t with
    | some t => some (s.x, s.y, t - lapse_rate * (0 - s.z))
    | none => none

/-- The two values `Dist_tlapse::run` writes on the face (lines 57-59). -/
structure RunResult where
  t : ℚ
  t_lapse_rate : ℚ
deriving DecidableEq

/-- `Dist_tlapse::run` (lines 30-61): lower the usable stations to sea level,
interpolate at the face's position, raise back to the face elevation
(`value + lapse_rate * (0 - z_face)`, line 55) and write `t` and
`t_lapse_rate`.  The undeclared `lapse_rate` the source reads is, per the
spec's open question, the per-face lapse rate from the `t_lapse_rate` met
input; it enters as a parameter. -/
def run (lapse_rate : ℚ) (stations : List Station) (face : FaceQ) :
    Except InterpError RunResult :=
  match interpIdw (lowered_values lapse_rate stations) (face.x, face.y, face.z) with
  | .error e => .error e
  | .ok v => .ok { t := v + lapse_rate * (0 - face.z), t_lapse_rate := lapse_rate }

end Dist_tlapse

namespace rh_from_obs

/-- A station as seen by `rh_from_obs::run`
(`src/src/modules/interp_met/rh_from_obs.cpp`): position, relative humidity
and temperature observations. -/
structure Station where
  x : ℚ
  y : ℚ
  z : ℚ
  rh : ℚ
  t : ℚ
deriving DecidableEq

/-- The face fields `rh_from_obs::run` reads: position and `face_data("t")`. -/
structure FaceQ where
  x : ℚ
  y : ℚ
  z : ℚ
  t : ℚ
deriving DecidableEq

/-- `esat` of `rh_from_obs.cpp` (lines 17-35): the piecewise Magnus formula
with the water parameters for `TA >= 0` and the ice parameters below.
`exp` is transcendental, so it enters as the function parameter `expQ`. -/
def esat (expQ : ℚ → ℚ) (TA : ℚ) : ℚ :=
  if 0 ≤ TA then 611.21 * expQ ((17.502 * TA) / (240.97 + TA))
  else 611.15 * expQ ((22.452 * TA) / (272.55 + TA))

/-- The vapour pressure `ea = (rh/100) * esat(t)` computed per station
(lines 52-55 and again 74-77). -/
def ea_of (expQ : ℚ → ℚ) (s : Station) : ℚ := s.rh / 100 * esat expQ s.t

/-- The slope `c1` of the ordinary-least-squares fit of `ea` against station
elevation, as `gsl_fit_linear` (an external library routine, line 64) returns
it: `(n*sum(z*ea) - sum z * sum ea) / (n*sum(z^2) - (sum z)^2)`.  Over `ℚ` a
degenerate design (all elevations equal) yields `0` by the division-by-zero
convention. -/
def fitSlope (expQ : ℚ → ℚ) (stations : List Station) : ℚ :=
  let sz := stations.map fun s => s.z
  let sea := stations.map (ea_of expQ)
  let n : ℚ := stations.length
  (n * (List.zipWith (fun a b => a * b) sz sea).sum - sz.sum * sea.sum)
    / (n * (sz.map fun z => z ^ 2).sum - sz.sum ^ 2)

/-- The function-local static cache of `rh_from_obs::run` (lines 42-43):
`last_update` (a `ptime`; `none` models the default not-a-date-time) and the
cached `lapse` (initialised to `-999`). -/
def initialCache : Option Nat × ℚ := (none, -999)

/-- The result of one `rh_from_obs::run` call: the `rh` written on the face,
the cache state left behind by the two statics, and whether this call ran the
regression (used to count fits per timestamp). -/
structure RunOut where
  rh : ℚ
  cache : Option Nat × ℚ
  didFit : Bool
deriving DecidableEq

/-- `rh_from_obs::run` (lines 36-104): refresh the cached lapse slope when
`last_update` differs from the current simulation time (lines 48-69), lower
all station vapour pressures to sea level with the cached slope, interpolate
(the thin-plate-spline implementation is not among the sampled sources and
enters as the function parameter `interpQ`), raise to the face elevation,
recover `rh = ea/esat(t_face)*100` and clamp with
`std::min(rh, 100)` then `std::max(10, rh)` (lines 98-99). -/
def run (expQ : ℚ → ℚ) (interpQ : List (ℚ × ℚ × ℚ) → ℚ × ℚ × ℚ → ℚ)
    (tau : Nat) (stations : List Station) (cache : Option Nat × ℚ)
    (elem : FaceQ) : RunOut :=
  let hit := cache.1 = some tau
  let lapse := if hit then cache.2 else fitSlope expQ stations
  let cache2 := if hit then cache else (some tau, fitSlope expQ stations)
  let lowered := stations.map fun s =>
    (s.x, s.y, ea_of expQ s + lapse * (0 - s.z))
  let ea := interpQ lowered (elem.x, elem.y, elem.z)
  let ea2 := ea + lapse * (elem.z - 0)
  let es := esat expQ elem.t
  let rh0 := ea2 / es * 100
  let rh1 := min rh0 100
  let rh2 := max 10 rh1
  { rh := rh2, cache := cache2, didFit := !decide hit }

/-- One tick of the face-parallel schedule at a fixed timestamp `tau`:
`run` on each face in sequence, threading the static cache exactly as the
C++ statics persist across calls.  Returns the per-face `rh` values, the
final cache, and the number of calls that ran the regression. -/
def runFaces (expQ : ℚ → ℚ) (interpQ : List (ℚ × ℚ × ℚ) → ℚ × ℚ × ℚ → ℚ)
    (tau : Nat) (stations : List Station) :
    List FaceQ → Option Nat × ℚ → List ℚ × (Option Nat × ℚ) × Nat
  | [], cache => ([], cache, 0)
  | f :: fs, cache =>
    let r := run expQ interpQ tau stations cache f
    let rest := runFaces expQ interpQ tau stations fs r.cache
    (r.rh :: rest.1, rest.2.1, (if r.didFit then 1 else 0) + rest.2.2)

/-- The comparison point for the cache: running every face with a fresh
static state, so the regression is refitted for every face. -/
def runRefit (expQ : ℚ → ℚ) (interpQ : List (ℚ × ℚ × ℚ) → ℚ × ℚ × ℚ → ℚ)
    (tau : Nat) (stations : List Station) (faces : List FaceQ) : List ℚ :=
  faces.map fun f => (run expQ interpQ tau stations initialCache f).rh

end rh_from_obs

namespace SnowDrift

/-- The fields of `ElementData` that `SnowDrift::compSnowDrift`
(`src/src/modules/snowpack/SnowDrift.cc`) reads or writes: mass `M`, length
`L` and `L0`, density `Rho`, and the soil volumetric fraction
`theta[SOIL]` used by the no-snow guard. -/
structure Elem where
  M : ℚ
  L : ℚ
  L0 : ℚ
  Rho : ℚ
  thetaSoil : ℚ
deriving DecidableEq

instance : Inhabited Elem := ⟨⟨0, 0, 0, 0, 0⟩⟩

/-- The fields of `NodeData` the erosion loop touches: elevation `z`,
settlement `u` and surface hoar mass `hoar`. -/
structure Node where
  z : ℚ
  u : ℚ
  hoar : ℚ
deriving DecidableEq

instance : Inhabited Node := ⟨⟨0, 0, 0⟩⟩

/-- The parts of `SnowStation` that `compSnowDrift` uses.  `Edata` lists the
elements bottom-first (`EMS[0]` first, the surface element last), `Ndata` the
nodes bottom-first (one more entry than `Edata`). -/
structure SnowSt where
  Edata : List Elem
  Ndata : List Node
  SoilNode : Nat
  cH : ℚ
  mH : ℚ
  Ground : ℚ
  ErosionMass : ℚ
  ErosionLevel : Nat
  windward : Bool
  rho_hn : ℚ
deriving DecidableEq

/-- The SNOWPACK numeric constants the function uses (`Constants::eps`,
`Constants::eps2`, `Constants::undefined`; defined in the library's
`Constants.h`, outside the sampled sources). -/
def eps : ℚ := 1 / 1000000

/-- `Constants::eps2 = eps * eps`. -/
def eps2 : ℚ := eps * eps

/-- `Constants::undefined`, the sentinel stored into `Sdata.drift` when wind
data is missing. -/
def undefinedQ : ℚ := -999

/-- State threaded through the erosion `while` loop (lines 190-243).  `ems`
and `nds` hold the element and node lists TOP-FIRST (the reverse of
`SnowSt.Edata`/`SnowSt.Ndata`), so eroding the surface element is removing
the list head. -/
structure ErodeSt where
  ems : List Elem
  nds : List Node
  cH : ℚ
  erosionMass : ℚ
  erosionLevel : Nat
  rho_hn : ℚ
deriving DecidableEq

/-- The erosion `while (massErode > 0)` loop of lines 190-243, recursing on the
top-first element list.  The three arms of the iteration are:
whole-element erosion when `massErode >= 0.95 * M` (lines 193-207, with the
`nE == 0` break of lines 241-242), partial erosion of the top element when
`massErode > Constants::eps` (lines 208-232, including the `L*Rho` mass
consistency fix-up), and otherwise terminate with `ErosionMass = 0`
(lines 233-237).  `Xdata.ErosionLevel = std::min(nE - 1, ...)` operates on an
unsigned `nE`, so `nE = 0` wraps and leaves the level unchanged; the wrap is
modelled explicitly. -/
def erodeLoop (windward : Bool) :
    List Elem → List Node → ℚ → ℚ → ℚ → Nat → ℚ → ErodeSt
  | [], nds, _, cH, eM, eL, rho => ⟨[], nds, cH, eM, eL, rho⟩
  | top :: rest, nds, massErode, cH, eM, eL, rho =>
    if massErode ≤ 0 then ⟨top :: rest, nds, cH, eM, eL, rho⟩
    else if 0.95 * top.M ≤ massErode then
      let rho2 := if windward then top.Rho else rho
      let cH2 := max 0 (cH - top.L)
      let nds2 :=
        match nds with
        | _ :: n2 :: ndRest => ({ n2 with hoar := 0 }) :: ndRest
        | other => other
      let nE2 := rest.length
      let eL2 := if nE2 = 0 then eL else min (nE2 - 1) eL
      if rest.isEmpty then ⟨[], nds2, cH2, eM + top.M, eL2, rho2⟩
      else erodeLoop windward rest nds2 (massErode - top.M) cH2 (eM + top.M) eL2 rho2
    else if eps < massErode then
      let M1 := if 0.001 < |top.L * top.Rho - top.M| then top.L * top.Rho else top.M
      let rho2 := if windward then top.Rho else rho
      let dL := -massErode / top.Rho
      let nds2 :=
        match nds with
        | nd :: ndRest => ({ nd with z := nd.z + dL + nd.u, u := 0, hoar := 0 }) :: ndRest
        | [] => []
      let L2 := top.L + dL
      let top2 : Elem := { top with L := L2, L0 := L2, M := M1 - massErode }
      ⟨top2 :: rest, nds2, max 0 (cH + dL), eM + massErode, eL, rho2⟩
    else
      ⟨top :: rest, nds, cH, 0, eL, rho⟩

/-- The guard of line 138: no snow above the soil, or the surface element
contains soil. -/
def no_snow_of (X : SnowSt) : Bool :=
  decide (X.Edata.length < X.SoilNode + 1) ||
    decide (0 < (X.Edata.getLastD default).thetaSoil)

/-- The windward test of line 152:
`!alpine3d && snow_redistribution && Xdata.windward`. -/
def windward_of (alpine3d snow_redistribution : Bool) (X : SnowSt) : Bool :=
  !alpine3d && snow_redistribution && X.windward

/-- The measured-depth erosion test of line 153:
`snow_erosion && mH > Ground + eps && mH + 0.02 < cH`. -/
def erosion_of (snow_erosion : Bool) (X : SnowSt) : Bool :=
  snow_erosion && decide (X.Ground + eps < X.mH) && decide (X.mH + 0.02 < X.cH)

/-- The outcome of `compSnowDrift`: the updated station, the surface fluxes
it touches, and the number of calls made to `compMassFlux` (the wind-driven
mass-flux routine of lines 84-116, which enters as the parameter `fluxFn`
because this embedding only needs to observe whether it is invoked). -/
structure DriftOut where
  X : SnowSt
  sdrift : ℚ
  ms_wind : ℚ
  fluxCalls : Nat
deriving DecidableEq

/-- `SnowDrift::compSnowDrift` (lines 132-280).  Branches, in source order:
the no-snow / no-wind early return (lines 138-148); the real-erosion branch
(lines 150-243) taken when windward, alpine3d or the measured-depth erosion
condition holds — inside it `massErode` is the externally forced value when
`fabs(forced_massErode) > eps2` and `0` otherwise (lines 157-174, the wind
computation being commented out), capped by the total element mass
(lines 178-188), then the erosion loop runs; the virtual-erosion branch
(lines 255-276), the only caller of `compMassFlux`; and the final
`ErosionMass = 0` arm (lines 277-279). -/
def compSnowDrift (alpine3d snow_redistribution snow_erosion : Bool)
    (sn_dt typical_slope_length : ℚ) (fluxFn : Elem → ℚ → ℚ → ℚ)
    (slopeAngle : ℚ) (vw_drift : Option ℚ) (ustar : ℚ)
    (X : SnowSt) (sdrift ms_wind : ℚ) (forced_massErode : ℚ) : DriftOut :=
  let nE := X.Edata.length
  let no_snow := no_snow_of X
  let no_wind := vw_drift.isNone
  if no_snow || no_wind then
    { X := { X with
        ErosionMass := 0
        ErosionLevel := if no_snow then X.SoilNode else X.ErosionLevel }
      sdrift := if no_snow then 0 else undefinedQ
      ms_wind := ms_wind
      fluxCalls := 0 }
  else
    let windward := windward_of alpine3d snow_redistribution X
    let erosion := erosion_of snow_erosion X
    if windward || alpine3d || erosion then
      let massErode0 : ℚ :=
        if eps2 < |forced_massErode| then max 0 (-forced_massErode) else 0
      let totalmass := (X.Edata.map (fun e => e.M)).sum
      let massErode1 := if totalmass < massErode0 then totalmass else massErode0
      let r := erodeLoop windward X.Edata.reverse X.Ndata.reverse massErode1
        X.cH 0 X.ErosionLevel X.rho_hn
      { X := { X with
          Edata := r.ems.reverse
          Ndata := r.nds.reverse
          cH := r.cH
          ErosionMass := r.erosionMass
          ErosionLevel := r.erosionLevel
          rho_hn := r.rho_hn }
        sdrift := sdrift
        ms_wind := ms_wind
        fluxCalls := 0 }
    else if snow_erosion && decide (X.SoilNode < X.ErosionLevel) then
      let vm0 := fluxFn (X.Edata.getD X.ErosionLevel default) ustar slopeAngle
        * (sn_dt / typical_slope_length)
      if eps < vm0 then
        let vm1 := if X.ErosionMass < -eps then vm0 - X.ErosionMass else vm0
        let elM := (X.Edata.getD X.ErosionLevel default).M
        let ms := min vm1 elM
        let vm2 := if elM < vm1 then vm1 - elM else vm1
        let eL1 := if elM < vm1 then X.ErosionLevel - 1 else X.ErosionLevel
        { X := { X with
            ErosionMass := -vm2
            ErosionLevel := max X.SoilNode (min eL1 (nE - 1)) }
          sdrift := sdrift
          ms_wind := ms
          fluxCalls := 1 }
      else
        { X := { X with ErosionMass := 0 }
          sdrift := sdrift
          ms_wind := ms_wind
          fluxCalls := 1 }
    else
      { X := { X with ErosionMass := 0 }
        sdrift := sdrift
        ms_wind := ms_wind
        fluxCalls := 0 }

end SnowDrift

namespace snow_slide

/-- A zeroed module data block (the state before `init`). -/
def data0 : Data := ⟨0, 0, 0, 0, 0, 0, 0⟩

/-- A zeroed variable-store row. -/
def row0 : StoreRow := ⟨0, 0, 0, 0, 0⟩

/-- Example mesh with one edge face: face `0` (centroid elevation 10, area 1,
flat, avalanche threshold 1) has neighbour slot 0 pointing at face `1`
(elevation 0, threshold 100) and its other two slots null, so its edge flag is
set while its weight sum is positive. -/
def exEdgeDom : Nat → Face := fun i =>
  if i = 0 then
    { centerZ := 10, area := 1, cosSlope := 1, aPowSlope := 1,
      canopyHeight := none, is_ghost := false,
      neighbors := fun j => if j = 0 then some 1 else none }
  else
    { centerZ := 0, area := 1, cosSlope := 1, aPowSlope := 100,
      canopyHeight := none, is_ghost := false, neighbors := fun _ => none }

/-- Store for `exEdgeDom`: face `0` carries 5 m of snow and 2000 mm of swe,
face `1` is bare. -/
def exEdgeSt : State :=
  { data := fun _ => data0
    store := fun i => if i = 0 then { row0 with snowdepthavg := 5, swe := 2000 } else row0 }

/-- Example mesh with an interior sink: face `0` (elevation 0, threshold 1) has
all three neighbour slots valid and non-ghost, pointing at the higher bare
faces `1`, `2`, `3` (elevations 100, 101, 102, thresholds 100), so its edge
flag is clear and all its downhill weights vanish. -/
def exSinkDom : Nat → Face := fun i =>
  if i = 0 then
    { centerZ := 0, area := 1, cosSlope := 1, aPowSlope := 1,
      canopyHeight := none, is_ghost := false,
      neighbors := fun j => some (j.val + 1) }
  else
    { centerZ := 99 + i, area := 1, cosSlope := 1, aPowSlope := 100,
      canopyHeight := none, is_ghost := false, neighbors := fun _ => none }

/-- Store for `exSinkDom`: face `0` carries 5 m of snow and 2000 mm of swe and
a stale `delta_avalanche_mass` of `999` from before the tick; the neighbours
are bare. -/
def exSinkSt : State :=
  { data := fun _ => data0
    store := fun i =>
      if i = 0 then
        { row0 with snowdepthavg := 5, swe := 2000, delta_avalanche_mass := 999,
                    delta_avalanche_snowdepth := 999 }
      else row0 }

/-- Example mesh for the interior mass balance: face `0` (elevation 10,
threshold 1) has its three neighbour slots pointing at the lower bare faces
`1`, `2`, `3` at elevation 0. -/
def exInteriorDom : Nat → Face := fun i =>
  if i = 0 then
    { centerZ := 10, area := 1, cosSlope := 1, aPowSlope := 1,
      canopyHeight := none, is_ghost := false,
      neighbors := fun j => some (j.val + 1) }
  else
    { centerZ := 0, area := 1, cosSlope := 1, aPowSlope := 100,
      canopyHeight := none, is_ghost := false, neighbors := fun _ => none }

/-- A state in the middle of the serial sweep of `exInteriorDom`: face `0`
holds 5 m of snow (vertical copy 5) and 2 m of swe. -/
def exInteriorSt : State :=
  { data := fun i =>
      if i = 0 then
        { data0 with maxDepth_norm := 1, maxDepth_vert := 1,
                     snowdepthavg_copy := 5, snowdepthavg_vert_copy := 5, swe_copy := 2 }
      else { data0 with maxDepth_norm := 100, maxDepth_vert := 100 }
    store := fun _ => row0 }

/-- Two-face mesh whose faces share the same sort key `zKey = 5`
(equal elevations, no snow). -/
def exTieDom : Nat → Face := fun _ =>
  { centerZ := 5, area := 1, cosSlope := 1, aPowSlope := 1,
    canopyHeight := none, is_ghost := false, neighbors := fun _ => none }

/-- Bare store for the tie example. -/
def exTieSt : State := { data := fun _ => data0, store := fun _ => row0 }

/-- Two-face mesh with distinct sort keys (elevations 5 and 3, no snow). -/
def exDistinctDom : Nat → Face := fun i =>
  { centerZ := if i = 0 then 5 else 3, area := 1, cosSlope := 1, aPowSlope := 1,
    canopyHeight := none, is_ghost := false, neighbors := fun _ => none }

end snow_slide

namespace Dist_tlapse

theorem interpIdw_const (samples : List (ℚ × ℚ × ℚ)) (q : ℚ × ℚ × ℚ) (T : ℚ)
    (hne : samples ≠ []) (hT : ∀ s ∈ samples, s.2.2 = T) :
    interpIdw samples q = .ok T := by
  obtain ⟨s₀, rest, rfl⟩ : ∃ s₀ rest, samples = s₀ :: rest := by
    cases samples with
    | nil => exact absurd rfl hne
    | cons a l => exact ⟨a, l, rfl⟩
  unfold interpIdw
  cases hfind : List.find? (fun s => dist2 s.1 s.2.1 q.1 q.2.1 == 0) (s₀ :: rest) with
  | some s =>
      simp only [Except.ok.injEq]
      exact hT s (List.mem_of_find?_eq_some hfind)
  | none =>
      have hd2 : ∀ s ∈ s₀ :: rest, dist2 s.1 s.2.1 q.1 q.2.1 ≠ 0 := by
        intro s hs
        have := List.find?_eq_none.mp hfind s hs
        simpa using this
      have hd2pos : ∀ s ∈ s₀ :: rest, 0 < dist2 s.1 s.2.1 q.1 q.2.1 := by
        intro s hs
        have hnn : 0 ≤ dist2 s.1 s.2.1 q.1 q.2.1 :=
          add_nonneg (sq_nonneg _) (sq_nonneg _)
        exact lt_of_le_of_ne hnn (Ne.symm (hd2 s hs))
      have hnum :
          ((s₀ :: rest).map (fun s => s.2.2 / dist2 s.1 s.2.1 q.1 q.2.1)).sum
            = T * ((s₀ :: rest).map (fun s => 1 / dist2 s.1 s.2.1 q.1 q.2.1)).sum := by
        rw [← List.sum_map_mul_left]
        apply congrArg List.sum
        apply List.map_congr_left
        intro s hs
        rw [hT s hs]
        ring
      have hSpos : 0 < ((s₀ :: rest).map (fun s => 1 / dist2 s.1 s.2.1 q.1 q.2.1)).sum := by
        apply List.sum_pos
        · intro x hx
          obtain ⟨s, hs, rfl⟩ := List.mem_map.mp hx
          exact one_div_pos.mpr (hd2pos s hs)
        · simp
      simp only [Except.ok.injEq, hnum]
      rw [mul_div_assoc, div_self (ne_of_gt hSpos), mul_one]

/-- C5: with a zero lapse rate and every in-radius station reporting the same
finite temperature, `Dist_tlapse::run` writes exactly that temperature into
`t`: lowering is the identity, interpolating a constant sample set returns the
constant, and raising adds zero. -/
theorem c5_constant_station_roundtrip (lapse_rate : ℚ) (stations : List Station)
    (face : FaceQ) (T : ℚ) (hγ : lapse_rate = 0) (hne : stations ≠ [])
    (hT : ∀ s ∈ stations, s.t = some T) :
    run lapse_rate stations face = .ok { t := T, t_lapse_rate := lapse_rate } := by
  subst hγ
  have hmem : ∀ p ∈ lowered_values 0 stations, p.2.2 = T := by
    intro p hp
    obtain ⟨s, hs, hsome⟩ := List.mem_filterMap.mp hp
    rw [hT s hs] at hsome
    simp only [Option.some.injEq] at hsome
    rw [← hsome]
    ring
  have hlne : lowered_values 0 stations ≠ [] := by
    intro hnil
    have : ∀ s ∈ stations, (match s.t with
        | some t => some (s.x, s.y, t - 0 * (0 - s.z))
        | none => (none : Option (ℚ × ℚ × ℚ))) = none :=
      List.filterMap_eq_nil_iff.mp hnil
    cases stations with
    | nil => exact hne rfl
    | cons s ss =>
        have := this s (List.mem_cons_self s ss)
        rw [hT s (List.mem_cons_self s ss)] at this
        simp at this
  unfold run
  rw [interpIdw_const _ _ T hlne hmem]
  simp only [Except.ok.injEq, RunResult.mk.injEq]
  constructor
  · ring
  · trivial

/-- Witness for `c5_constant_station_roundtrip` at a concrete input: one
station at the origin reporting 7 degrees, a face at elevation 100. -/
theorem c5_constant_station_roundtrip_witness :
    run 0 [⟨0, 0, 0, some 7⟩] ⟨1, 1, 100⟩ = .ok { t := 7, t_lapse_rate := 0 } :=
  c5_constant_station_roundtrip 0 [⟨0, 0, 0, some 7⟩] ⟨1, 1, 100⟩ 7 rfl
    (by simp) (by simp)

/-- C8: a station whose temperature observation is non-finite is excluded from
the interpolation sample set (removing it does not change the result), and
when no usable station remains `Dist_tlapse::run` fails with
`insufficient-data` instead of producing a value. -/
theorem c8_nonfinite_dropped_and_insufficient :
    (∀ (lapse_rate : ℚ) (s : Station) (stations : List Station) (face : FaceQ),
      s.t = none → run lapse_rate (s :: stations) face = run lapse_rate stations face) ∧
    (∀ (lapse_rate : ℚ) (stations : List Station) (face : FaceQ),
      (∀ s ∈ stations, s.t = none) →
      run lapse_rate stations face = .error .insufficient_data) := by
  constructor
  · intro lapse_rate s stations face hnan
    unfold run
    have : lowered_values lapse_rate (s :: stations) = lowered_values lapse_rate stations := by
      unfold lowered_values
      rw [List.filterMap_cons]
      rw [hnan]
    rw [this]
  · intro lapse_rate stations face hall
    have : lowered_values lapse_rate stations = [] := by
      apply List.filterMap_eq_nil_iff.mpr
      intro s hs
      rw [hall s hs]
    unfold run
    rw [this]
    rfl

/-- Witness for `c8_nonfinite_dropped_and_insufficient` at concrete inputs: a
single station with a non-finite temperature is dropped, and a station list
with only non-finite temperatures makes the run fail. -/
theorem c8_nonfinite_dropped_and_insufficient_witness :
    run 1 [⟨0, 0, 0, none⟩] ⟨1, 1, 5⟩ = run 1 [] ⟨1, 1, 5⟩ ∧
    run 1 [⟨0, 0, 0, none⟩] ⟨1, 1, 5⟩ = .error .insufficient_data :=
  ⟨c8_nonfinite_dropped_and_insufficient.1 1 ⟨0, 0, 0, none⟩ [] ⟨1, 1, 5⟩ rfl,
   c8_nonfinite_dropped_and_insufficient.2 1 [⟨0, 0, 0, none⟩] ⟨1, 1, 5⟩
     (by simp)⟩

end Dist_tlapse

namespace rh_from_obs

/-- C6: whatever the interpolated vapour pressure, the saturation curve and
the cached slope produce, the relative humidity `rh_from_obs::run` writes is
clamped into `[10, 100]` by the `std::min`/`std::max` pair before the store
write. -/
theorem c6_rh_clamped (expQ : ℚ → ℚ) (interpQ : List (ℚ × ℚ × ℚ) → ℚ × ℚ × ℚ → ℚ)
    (tau : Nat) (stations : List Station) (cache : Option Nat × ℚ) (elem : FaceQ) :
    10 ≤ (run expQ interpQ tau stations cache elem).rh ∧
      (run expQ interpQ tau stations cache elem).rh ≤ 100 := by
  unfold run
  constructor
  · exact le_max_left 10 _
  · exact max_le (by norm_num) (min_le_right _ 100)

end rh_from_obs

namespace rh_from_obs

theorem run_miss (expQ : ℚ → ℚ) (interpQ : List (ℚ × ℚ × ℚ) → ℚ × ℚ × ℚ → ℚ)
    (tau : Nat) (stations : List Station) (cache : Option Nat × ℚ) (elem : FaceQ)
    (h : cache.1 ≠ some tau) :
    run expQ interpQ tau stations cache elem =
      { rh := (run expQ interpQ tau stations initialCache elem).rh
        cache := (some tau, fitSlope expQ stations)
        didFit := true } := by
  unfold run initialCache
  simp [h]

theorem run_hit (expQ : ℚ → ℚ) (interpQ : List (ℚ × ℚ × ℚ) → ℚ × ℚ × ℚ → ℚ)
    (tau : Nat) (stations : List Station) (elem : FaceQ) :
    run expQ interpQ tau stations (some tau, fitSlope expQ stations) elem =
      { rh := (run expQ interpQ tau stations initialCache elem).rh
        cache := (some tau, fitSlope expQ stations)
        didFit := false } := by
  unfold run initialCache
  simp

theorem runFaces_hit (expQ : ℚ → ℚ) (interpQ : List (ℚ × ℚ × ℚ) → ℚ × ℚ × ℚ → ℚ)
    (tau : Nat) (stations : List Station) (faces : List FaceQ) :
    runFaces expQ interpQ tau stations faces (some tau, fitSlope expQ stations) =
      (runRefit expQ interpQ tau stations faces, (some tau, fitSlope expQ stations), 0) := by
  induction faces with
  | nil => rfl
  | cons f fs ih =>
      unfold runFaces
      rw [run_hit]
      simp only [ih]
      rfl

/-- C7: with the statics fresh for the current timestamp, the tick fits the
ordinary-least-squares lapse slope at most once — the first face computes and
caches it keyed by the timestamp, every later face of the same timestamp
reuses the cached value — and the per-face results are exactly those obtained
by refitting the regression for every face. -/
theorem c7_lapse_cache (expQ : ℚ → ℚ) (interpQ : List (ℚ × ℚ × ℚ) → ℚ × ℚ × ℚ → ℚ)
    (tau : Nat) (stations : List Station) (faces : List FaceQ)
    (cache0 : Option Nat × ℚ) (h : cache0.1 ≠ some tau) :
    (runFaces expQ interpQ tau stations faces cache0).1 =
        runRefit expQ interpQ tau stations faces ∧
      (runFaces expQ interpQ tau stations faces cache0).2.2 ≤ 1 := by
  cases faces with
  | nil =>
      unfold runFaces
      exact ⟨rfl, by norm_num⟩
  | cons f fs =>
      unfold runFaces
      rw [run_miss expQ interpQ tau stations cache0 f h]
      simp only [runFaces_hit]
      constructor
      · rfl
      · simp

/-- Witness for `c7_lapse_cache` at a concrete input: identity `exp`, a zero
interpolator, one station, two faces and the fresh static state. -/
theorem c7_lapse_cache_witness :
    (runFaces id (fun _ _ => 0) 5 [⟨0, 0, 10, 50, 1⟩] [⟨0, 0, 0, 1⟩, ⟨1, 1, 2, 1⟩]
        initialCache).1 =
      runRefit id (fun _ _ => 0) 5 [⟨0, 0, 10, 50, 1⟩] [⟨0, 0, 0, 1⟩, ⟨1, 1, 2, 1⟩] ∧
    (runFaces id (fun _ _ => 0) 5 [⟨0, 0, 10, 50, 1⟩] [⟨0, 0, 0, 1⟩, ⟨1, 1, 2, 1⟩]
        initialCache).2.2 ≤ 1 :=
  c7_lapse_cache id (fun _ _ => 0) 5 [⟨0, 0, 10, 50, 1⟩] [⟨0, 0, 0, 1⟩, ⟨1, 1, 2, 1⟩]
    initialCache (by simp [initialCache])

end rh_from_obs

namespace SnowDrift

theorem erodeLoop_nonpos (windward : Bool) (ems : List Elem) (nds : List Node)
    (massErode cH eM : ℚ) (eL : Nat) (rho : ℚ) (h : massErode ≤ 0) :
    erodeLoop windward ems nds massErode cH eM eL rho = ⟨ems, nds, cH, eM, eL, rho⟩ := by
  cases ems with
  | nil => rfl
  | cons top rest =>
      unfold erodeLoop
      rw [if_pos h]

/-- C9: whenever `compSnowDrift` takes the real-erosion branch (windward,
alpine3d or the measured-depth erosion condition) and no eroded mass is forced
externally, the commented-out wind computation leaves `massErode = 0`, the
erosion loop removes nothing — element list, node list and calculated height
are unchanged — `ErosionMass` ends at `0`, and the wind-driven mass-flux
routine is never invoked on this path. -/
theorem c9_no_forced_no_erosion (alpine3d snow_redistribution snow_erosion : Bool)
    (sn_dt typical_slope_length : ℚ) (fluxFn : Elem → ℚ → ℚ → ℚ)
    (slopeAngle : ℚ) (vw_drift : Option ℚ) (ustar : ℚ)
    (X : SnowSt) (sdrift ms_wind forced_massErode : ℚ)
    (h1 : no_snow_of X = false) (h2 : vw_drift.isNone = false)
    (h3 : (windward_of alpine3d snow_redistribution X || alpine3d ||
            erosion_of snow_erosion X) = true)
    (h4 : |forced_massErode| ≤ eps2) :
    (compSnowDrift alpine3d snow_redistribution snow_erosion sn_dt
        typical_slope_length fluxFn slopeAngle vw_drift ustar X sdrift ms_wind
        forced_massErode).X.Edata = X.Edata ∧
    (compSnowDrift alpine3d snow_redistribution snow_erosion sn_dt
        typical_slope_length fluxFn slopeAngle vw_drift ustar X sdrift ms_wind
        forced_massErode).X.Ndata = X.Ndata ∧
    (compSnowDrift alpine3d snow_redistribution snow_erosion sn_dt
        typical_slope_length fluxFn slopeAngle vw_drift ustar X sdrift ms_wind
        forced_massErode).X.cH = X.cH ∧
    (compSnowDrift alpine3d snow_redistribution snow_erosion sn_dt
        typical_slope_length fluxFn slopeAngle vw_drift ustar X sdrift ms_wind
        forced_massErode).X.ErosionMass = 0 ∧
    (compSnowDrift alpine3d snow_redistribution snow_erosion sn_dt
        typical_slope_length fluxFn slopeAngle vw_drift ustar X sdrift ms_wind
        forced_massErode).fluxCalls = 0 := by
  have hforced : ¬ eps2 < |forced_massErode| := not_lt.mpr h4
  unfold compSnowDrift
  rw [h1, h2]
  simp only [Bool.or_self, Bool.false_or, if_false, Bool.false_eq_true]
  rw [if_pos h3, if_neg hforced]
  have hme : (if (X.Edata.map fun e => e.M).sum < 0 then (X.Edata.map fun e => e.M).sum
      else (0 : ℚ)) ≤ 0 := by
    by_cases htm : (X.Edata.map fun e => e.M).sum < 0
    · rw [if_pos htm]; exact le_of_lt htm
    · rw [if_neg htm]
  rw [erodeLoop_nonpos _ _ _ _ _ _ _ _ hme]
  refine ⟨?_, ?_, ?_, ?_, ?_⟩ <;> simp [List.reverse_reverse]

/-- Witness for `c9_no_forced_no_erosion` at a concrete input: one snow
element, wind data present, `alpine3d` set, no externally forced erosion. -/
theorem c9_no_forced_no_erosion_witness :
    (compSnowDrift true false false 900 1 (fun _ _ _ => 42) 0 (some 5) 1
        { Edata := [⟨10, 1, 1, 10, 0⟩], Ndata := [⟨0, 0, 0⟩, ⟨1, 0, 0⟩],
          SoilNode := 0, cH := 1, mH := 0, Ground := 0, ErosionMass := 5,
          ErosionLevel := 0, windward := false, rho_hn := 0 }
        0 0 0).X.ErosionMass = 0 ∧
    (compSnowDrift true false false 900 1 (fun _ _ _ => 42) 0 (some 5) 1
        { Edata := [⟨10, 1, 1, 10, 0⟩], Ndata := [⟨0, 0, 0⟩, ⟨1, 0, 0⟩],
          SoilNode := 0, cH := 1, mH := 0, Ground := 0, ErosionMass := 5,
          ErosionLevel := 0, windward := false, rho_hn := 0 }
        0 0 0).fluxCalls = 0 := by
  have h := c9_no_forced_no_erosion true false false 900 1 (fun _ _ _ => 42) 0
    (some 5) 1
    { Edata := [⟨10, 1, 1, 10, 0⟩], Ndata := [⟨0, 0, 0⟩, ⟨1, 0, 0⟩],
      SoilNode := 0, cH := 1, mH := 0, Ground := 0, ErosionMass := 5,
      ErosionLevel := 0, windward := false, rho_hn := 0 }
    0 0 0
    (by with_unfolding_all decide) rfl (by simp) (by with_unfolding_all decide)
  exact ⟨h.2.2.2.1, h.2.2.2.2⟩

end SnowDrift

namespace snow_slide

@[simp] theorem upd_same {α : Type} (g : Nat → α) (i : Nat) (v : α) : upd g i v i = v := by
  unfold upd
  rw [if_pos rfl]

theorem upd_ne {α : Type} (g : Nat → α) (i j : Nat) (v : α) (h : j ≠ i) :
    upd g i v j = g j := by
  unfold upd
  rw [if_neg h]

theorem slotEdge_false (dom : Nat → Face) (f : Face) (i : Fin 3)
    (h : slotEdge dom f i = false) :
    ∃ nIdx, f.neighbors i = some nIdx ∧ (dom nIdx).is_ghost = false := by
  unfold slotEdge at h
  cases hn : f.neighbors i with
  | none => rw [hn] at h; simp at h
  | some v =>
      rw [hn] at h
      exact ⟨v, rfl, h⟩

/-- C1 fails on the code: on `exEdgeDom`, face `0` avalanches with its edge
flag set (two null slots) and a valid lower neighbour, yet the edge branch
does not stop the iteration — the excess `del_swe * cen_area = 8/5` m³ is
deposited into neighbour `1`'s delta and copies, and the edge face's own
published `delta_avalanche_mass` is `-16/5`, twice the excess, because the
removal is subtracted once in the edge branch and again after routing. -/
theorem c1_edge_face_routes_to_neighbour :
    edgeFlag exEdgeDom (exEdgeDom 0) = true ∧
    validOrder exEdgeDom 2 (init exEdgeDom 2 exEdgeSt) [0, 1] ∧
    ((run exEdgeDom 2 true [0, 1] (init exEdgeDom 2 exEdgeSt)).data 1).delta_avalanche_mass
        = 8/5 ∧
    ((run exEdgeDom 2 true [0, 1] (init exEdgeDom 2 exEdgeSt)).store 1).delta_avalanche_mass
        = 8/5 ∧
    ((run exEdgeDom 2 true [0, 1] (init exEdgeDom 2 exEdgeSt)).store 0).delta_avalanche_mass
        = -16/5 := by
  refine ⟨by with_unfolding_all decide, ⟨?_, ?_⟩, ?_, ?_, ?_⟩
  · with_unfolding_all decide
  · with_unfolding_all decide
  · with_unfolding_all decide
  · with_unfolding_all decide
  · with_unfolding_all decide

/-- C4 fails on the code: on `exSinkDom`, face `0` avalanches, has its edge
flag clear and a zero weight sum, so the loop `continue`s before the
write-back — after the tick its in-module delta is `0` but the store still
carries the stale pre-tick value `999`, so not every face has its delta
fields written back. -/
theorem c4_sink_face_store_not_written :
    validOrder exSinkDom 4 (init exSinkDom 4 exSinkSt) [3, 2, 1, 0] ∧
    edgeFlag exSinkDom (exSinkDom 0) = false ∧
    ((run exSinkDom 4 true [3, 2, 1, 0] (init exSinkDom 4 exSinkSt)).data 0).delta_avalanche_mass
        = 0 ∧
    ((run exSinkDom 4 true [3, 2, 1, 0] (init exSinkDom 4 exSinkSt)).store 0).delta_avalanche_mass
        = 999 ∧
    ((run exSinkDom 4 true [3, 2, 1, 0] (init exSinkDom 4 exSinkSt)).store 0).delta_avalanche_snowdepth
        = 999 ∧
    (999 : ℚ) ≠ 0 := by
  refine ⟨⟨?_, ?_⟩, ?_, ?_, ?_, ?_, ?_⟩
  · with_unfolding_all decide
  · with_unfolding_all decide
  · with_unfolding_all decide
  · with_unfolding_all decide
  · with_unfolding_all decide
  · with_unfolding_all decide
  · with_unfolding_all decide

end snow_slide

namespace snow_slide

theorem pairwise_perm_eq {α : Type} {R : α → α → Prop} :
    ∀ (l₁ l₂ : List α), l₁.Perm l₂ → l₁.Pairwise R → l₂.Pairwise R →
      (∀ a b, a ∈ l₁ → b ∈ l₁ → R a b → R b a → a = b) → l₁ = l₂ := by
  intro l₁
  induction l₁ with
  | nil =>
      intro l₂ hp _ _ _
      exact hp.nil_eq
  | cons a t ih =>
      intro l₂ hp h₁ h₂ anti
      cases l₂ with
      | nil => exact absurd hp.symm.nil_eq (by simp)
      | cons b t₂ =>
          by_cases hab : a = b
          · subst hab
            have hp' := hp.cons_inv
            have ht : t = t₂ := by
              apply ih t₂ hp' h₁.of_cons h₂.of_cons
              intro x y hx hy hxy hyx
              exact anti x y (List.mem_cons_of_mem a hx) (List.mem_cons_of_mem a hy) hxy hyx
            rw [ht]
          · exfalso
            have hbmem : b ∈ a :: t := hp.symm.subset (List.mem_cons_self b t₂)
            have hamem : a ∈ b :: t₂ := hp.subset (List.mem_cons_self a t)
            have hbt : b ∈ t := by
              cases List.mem_cons.mp hbmem with
              | inl h => exact absurd h.symm hab
              | inr h => exact h
            have hat : a ∈ t₂ := by
              cases List.mem_cons.mp hamem with
              | inl h => exact absurd h hab
              | inr h => exact h
            have hRab : R a b := (List.pairwise_cons.mp h₁).1 b hbt
            have hRba : R b a := (List.pairwise_cons.mp h₂).1 a hat
            exact hab (anti a b (List.mem_cons_self a t) hbmem hRab hRba)

/-- C3 fails on the code for ties: on `exTieDom` both faces share `zKey = 5`,
the reversed order `[1, 0]` satisfies everything `tbb::parallel_sort`'s
comparator (`b.first < a.first`, with no index tie-break and no stability
guarantee) promises, yet it differs from the spec's stable index-tie-broken
order `[0, 1]`, so the iteration order is not uniquely determined. -/
theorem c3_tie_breaks_not_deterministic :
    validOrder exTieDom 2 exTieSt [1, 0] ∧
    specOrder exTieDom 2 exTieSt = [0, 1] ∧
    ([1, 0] : List Nat) ≠ [0, 1] := by
  refine ⟨⟨?_, ?_⟩, ?_, ?_⟩
  · with_unfolding_all decide
  · with_unfolding_all decide
  · with_unfolding_all decide
  · with_unfolding_all decide

/-- C3 amended: the serial loop visits the faces in an order that is pairwise
descending in `zKey` (the spec's stable index-tie-broken order is one such
order), and the order is uniquely determined whenever the `zKey` values of
the faces are pairwise distinct; ties may be broken arbitrarily by the
unstable parallel sort. -/
theorem c3_descending_order (dom : Nat → Face) (n : Nat) (st : State) :
    validOrder dom n st (specOrder dom n st) ∧
    ∀ o1 o2, validOrder dom n st o1 → validOrder dom n st o2 →
      (∀ i, i < n → ∀ j, j < n → zKey dom st i = zKey dom st j → i = j) →
      o1 = o2 := by
  constructor
  · constructor
    · exact List.perm_insertionSort (specR (zKey dom st)) (List.range n)
    · have hs := List.sorted_insertionSort (specR (zKey dom st)) (List.range n)
      unfold List.Sorted at hs
      apply hs.imp
      intro a b hab
      rcases hab with h | ⟨h, _⟩
      · exact h.le
      · exact h.symm.le
  · intro o1 o2 h1 h2 hinj
    apply pairwise_perm_eq o1 o2 (h1.1.trans h2.1.symm) h1.2 h2.2
    intro a b ha hb hab hba
    have han : a < n := List.mem_range.mp (h1.1.subset ha)
    have hbn : b < n := List.mem_range.mp (h1.1.subset hb)
    exact hinj a han b hbn (le_antisymm hba hab)

/-- Witness for `c3_descending_order` at a concrete input: two faces with
distinct keys 5 and 3, where the unique admissible order is the spec order. -/
theorem c3_descending_order_witness :
    ([0, 1] : List Nat) = specOrder exDistinctDom 2 exTieSt :=
  (c3_descending_order exDistinctDom 2 exTieSt).2 [0, 1]
    (specOrder exDistinctDom 2 exTieSt)
    (by
      unfold validOrder
      exact ⟨by with_unfolding_all decide, by with_unfolding_all decide⟩)
    (c3_descending_order exDistinctDom 2 exTieSt).1
    (by with_unfolding_all decide)

end snow_slide

namespace snow_slide

/-- C2: for an avalanching interior face (edge flag clear, positive weight
sum), the swe volume removed from the face equals the sum of the swe volumes
routed to its three neighbours with the normalized weights — the `out_mass`
balance of lines 186-227 — within the source's tolerance of `1e-4` m³ (the
difference is exactly zero over `ℚ`). -/
theorem c2_interior_mass_balance (dom : Nat → Face) (uvs : Bool) (st : State) (fi : Nat)
    (_hav : maxDepthUsed uvs (st.data fi) < (st.data fi).snowdepthavg_copy)
    (hedge : edgeFlag dom (dom fi) = false)
    (hpos : 0 < wDem dom st (zS dom st fi) (dom fi)) :
    |origMass dom uvs st fi - outMass dom uvs st fi| < 1/10000 := by
  have hslots : slotEdge dom (dom fi) 0 = false ∧ slotEdge dom (dom fi) 1 = false ∧
      slotEdge dom (dom fi) 2 = false := by
    unfold edgeFlag at hedge
    simp only [Bool.or_eq_false_iff] at hedge
    exact ⟨hedge.1.1, hedge.1.2, hedge.2⟩
  obtain ⟨n0, hn0, hg0⟩ := slotEdge_false dom (dom fi) 0 hslots.1
  obtain ⟨n1, hn1, hg1⟩ := slotEdge_false dom (dom fi) 1 hslots.2.1
  obtain ⟨n2, hn2, hg2⟩ := slotEdge_false dom (dom fi) 2 hslots.2.2
  have hW : weight dom st (zS dom st fi) (dom fi) 0 +
      weight dom st (zS dom st fi) (dom fi) 1 +
      weight dom st (zS dom st fi) (dom fi) 2 ≠ 0 := by
    unfold wDem at hpos
    exact ne_of_gt hpos
  have hzero : origMass dom uvs st fi - outMass dom uvs st fi = 0 := by
    unfold origMass outMass routeLoop wDem
    simp only [List.foldl, routeStep, hn0, hn1, hn2, hg0, hg1, hg2, Bool.false_eq_true,
      if_false]
    field_simp
    ring
  rw [hzero]
  norm_num

/-- Witness for `c2_interior_mass_balance` at a concrete input: face `0` of
`exInteriorDom` avalanching over three valid lower neighbours. -/
theorem c2_interior_mass_balance_witness :
    maxDepthUsed true (exInteriorSt.data 0) < (exInteriorSt.data 0).snowdepthavg_copy ∧
    edgeFlag exInteriorDom (exInteriorDom 0) = false ∧
    0 < wDem exInteriorDom exInteriorSt (zS exInteriorDom exInteriorSt 0) (exInteriorDom 0) ∧
    |origMass exInteriorDom true exInteriorSt 0 - outMass exInteriorDom true exInteriorSt 0|
        < 1/10000 :=
  ⟨by with_unfolding_all decide, by with_unfolding_all decide,
   by with_unfolding_all decide,
   c2_interior_mass_balance exInteriorDom true exInteriorSt 0
     (by with_unfolding_all decide) (by with_unfolding_all decide)
     (by with_unfolding_all decide)⟩

/-- C4 amended: every face whose processing does not reach the interior-sink
`continue` ends its loop iteration with its delta fields written to the
variable store (the store row equals the module data), but an avalanching
interior sink face (edge flag clear, zero weight sum) is left entirely
unchanged — including the store, whose stale delta values are NOT
overwritten with the zeroed module deltas. -/
theorem c4_store_writeback (dom : Nat → Face) (uvs : Bool) (st : State) (fi : Nat) :
    (maxDepthUsed uvs (st.data fi) < (st.data fi).snowdepthavg_copy →
     edgeFlag dom (dom fi) = false →
     wDem dom st (zS dom st fi) (dom fi) = 0 →
     processFace dom uvs st fi = st) ∧
    (¬(maxDepthUsed uvs (st.data fi) < (st.data fi).snowdepthavg_copy ∧
       edgeFlag dom (dom fi) = false ∧
       wDem dom st (zS dom st fi) (dom fi) = 0) →
     ((processFace dom uvs st fi).store fi).delta_avalanche_snowdepth
         = ((processFace dom uvs st fi).data fi).delta_avalanche_snowdepth ∧
     ((processFace dom uvs st fi).store fi).delta_avalanche_mass
         = ((processFace dom uvs st fi).data fi).delta_avalanche_mass) := by
  constructor
  · intro hav hedge hw
    unfold zS at hw
    simp only [processFace, hedge, hw]
    simp [hav]
  · intro hns
    by_cases hav : maxDepthUsed uvs (st.data fi) < (st.data fi).snowdepthavg_copy
    · by_cases hw : wDem dom st (zS dom st fi) (dom fi) = 0
      · have hedge : edgeFlag dom (dom fi) = true := by
          rcases Bool.eq_false_or_eq_true (edgeFlag dom (dom fi)) with h | h
          · exact h
          · exact absurd ⟨hav, h, hw⟩ hns
        unfold zS at hw
        simp only [processFace, hedge, hw]
        simp [hav, upd_same]
      · unfold zS at hw
        simp only [processFace]
        simp [hav, hw, upd_same]
    · simp only [processFace]
      simp [hav, upd_same]

/-- Witness for `c4_store_writeback` at concrete inputs: the sink face `0` of
`exSinkDom` leaves the whole state untouched, and the interior non-avalanching
face `1` gets its store row synchronised with its data. -/
theorem c4_store_writeback_witness :
    processFace exSinkDom true (prep exSinkDom 4 (init exSinkDom 4 exSinkSt)) 0
        = prep exSinkDom 4 (init exSinkDom 4 exSinkSt) ∧
    ((processFace exSinkDom true (prep exSinkDom 4 (init exSinkDom 4 exSinkSt)) 1).store 1).delta_avalanche_mass
        = ((processFace exSinkDom true (prep exSinkDom 4 (init exSinkDom 4 exSinkSt)) 1).data 1).delta_avalanche_mass :=
  ⟨(c4_store_writeback exSinkDom true (prep exSinkDom 4 (init exSinkDom 4 exSinkSt)) 0).1
      (by with_unfolding_all decide) (by with_unfolding_all decide)
      (by with_unfolding_all decide),
   ((c4_store_writeback exSinkDom true (prep exSinkDom 4 (init exSinkDom 4 exSinkSt)) 1).2
      (by with_unfolding_all decide)).2⟩

theorem routeStep_store (dom : Nat → Face) (f : Face) (a b c : ℚ) (wn : Fin 3 → ℚ)
    (acc : State × ℚ) (j : Fin 3) :
    (routeStep dom f a b c wn acc j).1.store = acc.1.store := by
  unfold routeStep
  cases hn : f.neighbors j with
  | none => rfl
  | some nIdx =>
      by_cases hg : (dom nIdx).is_ghost = true
      · simp [hg]
      · simp [hg]

theorem routeLoop_store (dom : Nat → Face) (f : Face) (a b c : ℚ) (wn : Fin 3 → ℚ)
    (st : State) :
    (routeLoop dom f a b c wn st).1.store = st.store := by
  unfold routeLoop
  simp only [List.foldl]
  rw [routeStep_store, routeStep_store, routeStep_store]

theorem processFace_store_maxDepth (dom : Nat → Face) (uvs : Bool) (st : State)
    (fi j : Nat) :
    ((processFace dom uvs st fi).store j).maxDepth = (st.store j).maxDepth := by
  by_cases hav : maxDepthUsed uvs (st.data fi) < (st.data fi).snowdepthavg_copy <;>
    by_cases hedge : edgeFlag dom (dom fi) = true <;>
    by_cases hw : wDem dom st ((dom fi).centerZ + (st.data fi).snowdepthavg_vert_copy) (dom fi) = 0 <;>
    simp only [processFace, hav, hedge, hw, if_true, if_false] <;>
    simp [routeLoop_store, upd, hav, hedge, hw] <;>
    split <;> simp_all

theorem foldl_store_maxDepth (dom : Nat → Face) (uvs : Bool) :
    ∀ (order : List Nat) (st : State) (j : Nat),
      (((order.foldl (processFace dom uvs) st)).store j).maxDepth = (st.store j).maxDepth := by
  intro order
  induction order with
  | nil => intro st j; rfl
  | cons a l ih =>
      intro st j
      simp only [List.foldl]
      rw [ih, processFace_store_maxDepth]

/-- C10: `init` publishes `maxDepth_norm` in the store under `maxDepth`, `run`
never rewrites that store entry (for any face, any iteration order and either
setting of `use_vertical_snow`), the configuration default for
`use_vertical_snow` is `true`, and in that default the threshold `run`
actually compares against `snowdepthavg` is
`maxDepth_vert = maxDepth_norm * max(0.001, cos(slope))`, not the published
value. -/
theorem c10_maxDepth_published (dom : Nat → Face) (n : Nat) (st : State)
    (uvs : Bool) (order : List Nat) (fi : Nat) (h : fi < n) :
    use_vertical_snow_of none = true ∧
    ((init dom n st).store fi).maxDepth = maxDepth_norm_of (dom fi) ∧
    ((run dom n uvs order (init dom n st)).store fi).maxDepth = maxDepth_norm_of (dom fi) ∧
    maxDepthUsed true ((prep dom n (init dom n st)).data fi)
        = maxDepth_norm_of (dom fi) * vertFactor (dom fi) := by
  refine ⟨rfl, ?_, ?_, ?_⟩
  · simp [init, h]
  · unfold run
    rw [foldl_store_maxDepth]
    have hps : (prep dom n (init dom n st)).store = (init dom n st).store := rfl
    rw [hps]
    simp [init, h]
  · simp [prep, init, h, maxDepthUsed]

/-- Witness for `c10_maxDepth_published` at a concrete input: face `0` of the
two-face `exEdgeDom` mesh. -/
theorem c10_maxDepth_published_witness :
    use_vertical_snow_of none = true ∧
    ((init exEdgeDom 2 exEdgeSt).store 0).maxDepth = maxDepth_norm_of (exEdgeDom 0) ∧
    ((run exEdgeDom 2 true [0, 1] (init exEdgeDom 2 exEdgeSt)).store 0).maxDepth
        = maxDepth_norm_of (exEdgeDom 0) ∧
    maxDepthUsed true ((prep exEdgeDom 2 (init exEdgeDom 2 exEdgeSt)).data 0)
        = maxDepth_norm_of (exEdgeDom 0) * vertFactor (exEdgeDom 0) :=
  c10_maxDepth_published exEdgeDom 2 exEdgeSt true [0, 1] 0 (by decide)

end snow_slide
